import Mathlib

/-!
# Verification of the OAuth2/PKCE authorization core of job_track_now-api

A shallow embedding, translated from the Python sources, of the
authorization-code lifecycle, PKCE challenge verification, JWT
issuance/verification and the request-gating middleware, together with
theorems settling the specification claims.

Conventions of the embedding:
* machine integers and bytes are `Nat` (reduced with `% 2 ^ 32` or `% 256`
  where the Python/SQL semantics wraps);
* timestamps are `Int` seconds (the database clock `NOW()`);
* Python functions that can raise return `Option`/`Except`;
* the database session is an explicit `Db` value threaded through the
  functions, with fault flags standing for an I/O error raised by the
  corresponding `db.execute` call.
-/

/-! ## SHA-256 over byte lists (`hashlib.sha256`) -/

/-- Reduce to a 32-bit word, as every SHA-256 addition does. -/
def w32 (n : Nat) : Nat := n % 4294967296

/-- Right rotation of a 32-bit word by `n` places (arithmetic form). -/
def rotr (n x : Nat) : Nat := w32 (x / 2 ^ n + x % 2 ^ n * 2 ^ (32 - n))

/-- SHA-256 small sigma 0: `ROTR7 ^ ROTR18 ^ SHR3`. -/
def ssig0 (x : Nat) : Nat := (rotr 7 x) ^^^ (rotr 18 x) ^^^ (x / 2 ^ 3)

/-- SHA-256 small sigma 1: `ROTR17 ^ ROTR19 ^ SHR10`. -/
def ssig1 (x : Nat) : Nat := (rotr 17 x) ^^^ (rotr 19 x) ^^^ (x / 2 ^ 10)

/-- SHA-256 big Sigma 0: `ROTR2 ^ ROTR13 ^ ROTR22`. -/
def bsig0 (x : Nat) : Nat := (rotr 2 x) ^^^ (rotr 13 x) ^^^ (rotr 22 x)

/-- SHA-256 big Sigma 1: `ROTR6 ^ ROTR11 ^ ROTR25`. -/
def bsig1 (x : Nat) : Nat := (rotr 6 x) ^^^ (rotr 11 x) ^^^ (rotr 25 x)

/-- SHA-256 choice function `Ch(e,f,g)`. -/
def shaCh (e f g : Nat) : Nat := (e &&& f) ^^^ ((4294967295 ^^^ e) &&& g)

/-- SHA-256 majority function `Maj(a,b,c)`. -/
def shaMaj (a b c : Nat) : Nat := (a &&& b) ^^^ (a &&& c) ^^^ (b &&& c)

/-- The 64 SHA-256 round constants. -/
def K256 : List Nat :=
  [1116352408, 1899447441, 3049323471, 3921009573, 961987163,
   1508970993, 2453635748, 2870763221, 3624381080, 310598401,
   607225278, 1426881987, 1925078388, 2162078206, 2614888103,
   3248222580, 3835390401, 4022224774, 264347078, 604807628,
   770255983, 1249150122, 1555081692, 1996064986, 2554220882,
   2821834349, 2952996808, 3210313671, 3336571891, 3584528711,
   113926993, 338241895, 666307205, 773529912, 1294757372,
   1396182291, 1695183700, 1986661051, 2177026350, 2456956037,
   2730485921, 2820302411, 3259730800, 3345764771, 3516065817,
   3600352804, 4094571909, 275423344, 430227734, 506948616,
   659060556, 883997877, 958139571, 1322822218, 1537002063,
   1747873779, 1955562222, 2024104815, 2227730452, 2361852424,
   2428436474, 2756734187, 3204031479, 3329325298]

/-- The eight 32-bit working registers of the compression function. -/
structure Sha256St where
  a : Nat
  b : Nat
  c : Nat
  d : Nat
  e : Nat
  f : Nat
  g : Nat
  h : Nat
deriving Repr, DecidableEq

/-- The SHA-256 initial hash value. -/
def sha256Init : Sha256St :=
  { a := 1779033703, b := 3144134277, c := 1013904242, d := 2773480762,
    e := 1359893119, f := 2600822924, g := 528734635, h := 1541459225 }

/-- One SHA-256 compression round, consuming a `(constant, scheduled word)` pair. -/
def shaRound (st : Sha256St) (kw : Nat × Nat) : Sha256St :=
  let t1 := w32 (st.h + bsig1 st.e + shaCh st.e st.f st.g + kw.1 + kw.2)
  let t2 := w32 (bsig0 st.a + shaMaj st.a st.b st.c)
  { a := w32 (t1 + t2), b := st.a, c := st.b, d := st.c,
    e := w32 (st.d + t1), f := st.e, g := st.f, h := st.g }

/-- Big-endian 4-byte groups to 32-bit words. -/
def wordsOfBytes : List Nat → List Nat
  | b0 :: b1 :: b2 :: b3 :: rest =>
      (b0 * 16777216 + b1 * 65536 + b2 * 256 + b3) :: wordsOfBytes rest
  | _ => []

/-- Extend a 16-word message schedule by `n` further words. -/
def extendW : List Nat → Nat → List Nat
  | ws, 0 => ws
  | ws, n + 1 =>
      let k := ws.length
      extendW (ws ++ [w32 (ssig1 (ws.getD (k - 2) 0) + ws.getD (k - 7) 0 +
        ssig0 (ws.getD (k - 15) 0) + ws.getD (k - 16) 0)]) n

/-- Compress one 64-byte block into the running hash state. -/
def compressBlock (h0 : Sha256St) (block : List Nat) : Sha256St :=
  let ws := extendW (wordsOfBytes block) 48
  let st := (K256.zip ws).foldl shaRound h0
  { a := w32 (h0.a + st.a), b := w32 (h0.b + st.b), c := w32 (h0.c + st.c),
    d := w32 (h0.d + st.d), e := w32 (h0.e + st.e), f := w32 (h0.f + st.f),
    g := w32 (h0.g + st.g), h := w32 (h0.h + st.h) }

/-- Big-endian 8-byte encoding of the 64-bit message bit length. -/
def lenBytes (n : Nat) : List Nat :=
  [n / 2 ^ 56 % 256, n / 2 ^ 48 % 256, n / 2 ^ 40 % 256, n / 2 ^ 32 % 256,
   n / 2 ^ 24 % 256, n / 2 ^ 16 % 256, n / 2 ^ 8 % 256, n % 256]

/-- SHA-256 padding: append `0x80`, zeros to 56 mod 64, then the bit length. -/
def shaPad (msg : List Nat) : List Nat :=
  let L := msg.length
  let k := (64 - (L + 9) % 64) % 64
  msg ++ 128 :: (List.replicate k 0 ++ lenBytes (8 * L))

/-- Split a byte list into 64-byte blocks (structural recursion on fuel, so
that the kernel can evaluate it; each step consumes at least one byte, so
`l.length` fuel always suffices). -/
def chunk64Fuel : Nat → List Nat → List (List Nat)
  | 0, _ => []
  | _, [] => []
  | fuel + 1, x :: xs => (x :: xs).take 64 :: chunk64Fuel fuel ((x :: xs).drop 64)

/-- Split a byte list into 64-byte blocks. -/
def chunk64 (l : List Nat) : List (List Nat) := chunk64Fuel l.length l

/-- Big-endian bytes of a 32-bit word. -/
def wordBytes (w : Nat) : List Nat :=
  [w / 16777216 % 256, w / 65536 % 256, w / 256 % 256, w % 256]

/-- SHA-256 digest of a byte list, as 32 bytes (`hashlib.sha256(..).digest()`). -/
def sha256 (msg : List Nat) : List Nat :=
  let fin := (chunk64 (shaPad msg)).foldl compressBlock sha256Init
  ([fin.a, fin.b, fin.c, fin.d, fin.e, fin.f, fin.g, fin.h]).flatMap wordBytes

/-! ## base64url without padding (`base64.urlsafe_b64encode(..)` + `.rstrip` of `=`) -/

/-- The urlsafe base64 alphabet. -/
def b64chars : List Char :=
  "ABCDEFGHIJKLMNOPQRSTUVWXYZabcdefghijklmnopqrstuvwxyz0123456789-_".data

/-- Character for one 6-bit group. -/
def sextetChar (n : Nat) : Char := b64chars.getD n '?'

/-- urlsafe base64 of a byte list as characters, padding already stripped. -/
def b64CharList : List Nat → List Char
  | [] => []
  | [b0] => [sextetChar (b0 / 4), sextetChar (b0 % 4 * 16)]
  | [b0, b1] => [sextetChar (b0 / 4), sextetChar (b0 % 4 * 16 + b1 / 16),
                 sextetChar (b1 % 16 * 4)]
  | b0 :: b1 :: b2 :: rest =>
      sextetChar (b0 / 4) :: sextetChar (b0 % 4 * 16 + b1 / 16) ::
      sextetChar (b1 % 16 * 4 + b2 / 64) :: sextetChar (b2 % 64) ::
      b64CharList rest

/-- urlsafe base64 of a byte list, without `=` padding, as a string. -/
def base64urlNoPad (bytes : List Nat) : String := String.mk (b64CharList bytes)

/-! ## ASCII encoding (`str.encode` with the ascii codec) -/

/-- Whether every character of `s` is in the ASCII range (code point `< 128`). -/
def isAsciiStr (s : String) : Bool := s.data.all (fun ch => ch.toNat < 128)

/-- The code points of a string as bytes (meaningful when `isAsciiStr`). -/
def asciiBytes (s : String) : List Nat := s.data.map Char.toNat

/-- `s.encode("ascii")`: the byte string, or `none` when the codec raises
`UnicodeEncodeError` on a character outside the ASCII range. -/
def asciiEncode (s : String) : Option (List Nat) :=
  if isAsciiStr s then some (asciiBytes s) else none

/-! ## `verify_pkce_challenge` (src/app/utils/oauth_utils.py lines 180-208)

The Python body can raise (the `encode('ascii')` step), so the embedding
returns `Option Bool`: `some b` is a normal return of `b`, `none` is the
raised `UnicodeEncodeError` escaping the function. -/

/-- `verify_pkce_challenge(code_verifier, code_challenge, method)`.
`S256`: base64url (no padding) of the SHA-256 digest of the ASCII-encoded
verifier, compared with the stored challenge; `plain`: direct string
equality; any other method returns `False`. -/
def verify_pkce_challenge (code_verifier code_challenge method : String) :
    Option Bool :=
  if method = "S256" then
    match asciiEncode code_verifier with
    | none => none
    | some bytes => some (base64urlNoPad (sha256 bytes) == code_challenge)
  else if method = "plain" then
    some (code_verifier == code_challenge)
  else
    some false

/-- The challenge a well-behaved client derives from its verifier with the
SHA-256/base64url scheme (defined for ASCII verifiers). -/
def genChallengeS256 (v : String) : String :=
  base64urlNoPad (sha256 (asciiBytes v))

/-! ## Authorization code store (src/app/utils/oauth_utils.py lines 32-177)

The database session is an explicit `Db` value.  The three `fail*` flags
stand for the underlying `db.execute` raising an I/O error inside the
corresponding function's `try` block; each embedded function handles that
flag exactly the way the Python handles the exception (re-raise, return
`None`, or swallow). -/

/-- One row of the `oauth_codes` table. -/
structure OAuthCode where
  code : String
  username : String
  redirect_uri : String
  code_challenge : String
  code_challenge_method : String
  state : String
  scope : String
  created_at : Int
  used : Bool
  used_at : Option Int
  user_id : Int
  is_admin : Bool
deriving Repr, DecidableEq

/-- The store plus fault-injection flags for storage I/O errors. -/
structure Db where
  codes : List OAuthCode
  failStore : Bool
  failRetrieve : Bool
  failMarkUsed : Bool
deriving Repr, DecidableEq

/-- `DELETE FROM oauth_codes WHERE created_at < NOW() - INTERVAL '10 minutes'`. -/
def cleanup_expired_rows (codes : List OAuthCode) (now : Int) : List OAuthCode :=
  codes.filter (fun r => decide (¬ (r.created_at < now - 600)))

/-- `store_authorization_code` (lines 32-88): cleanup of expired rows, then
insert of the new row with `used = FALSE`, `created_at = NOW()`.  On a
storage error the transaction is rolled back and the exception re-raised
(`Except.error`). -/
def store_authorization_code (db : Db)
    (code username redirect_uri code_challenge code_challenge_method
     state scope : String) (user_id : Int) (is_admin : Bool) (now : Int) :
    Except String Db :=
  if db.failStore then
    .error "Failed to store authorization code"
  else
    .ok { db with codes := cleanup_expired_rows db.codes now ++
      [{ code := code, username := username, redirect_uri := redirect_uri,
         code_challenge := code_challenge,
         code_challenge_method := code_challenge_method, state := state,
         scope := scope, created_at := now, used := false, used_at := none,
         user_id := user_id, is_admin := is_admin }] }

/-- `retrieve_authorization_code` (lines 91-150): select the row by code,
return `None` when absent, already used, or expired
(`created_at < NOW() - INTERVAL '10 minutes'`).  A storage error is caught
and ALSO returned as `None` (lines 146-148). -/
def retrieve_authorization_code (db : Db) (code : String) (now : Int) :
    Option OAuthCode :=
  if db.failRetrieve then none
  else
    match db.codes.find? (fun r => r.code == code) with
    | none => none
    | some r =>
        if r.used then none
        else if r.created_at < now - 600 then none
        else some r

/-- `mark_authorization_code_used` (lines 153-177):
`UPDATE oauth_codes SET used = TRUE, used_at = NOW() WHERE code = :code`.
The update is unconditional on `used`, the affected-row count is only
logged, and a storage error is caught without re-raising (rollback, so the
store is unchanged). -/
def mark_authorization_code_used (db : Db) (code : String) (now : Int) : Db :=
  if db.failMarkUsed then db
  else { db with codes := db.codes.map (fun r =>
    if r.code == code then { r with used := true, used_at := some now } else r) }

/-! ## JWT issue / verify (src/app/utils/oauth_utils.py lines 211-303)

`jose.jwt.encode` / `jose.jwt.decode` are a third-party dependency whose
sources are not part of this repository, so the token container and the
decode checks are modelled from the spec (section 4.3): a token is a
payload plus a signature under the process signing key; decoding validates
the signature, then the expiry, and skips audience matching when audience
verification is disabled.  The claim set itself is translated from
`create_access_token`. -/

/-- The JWT claim set built by `create_access_token` (lines 237-272).
`jti` and `session_state` are the `uuid4()` values, passed explicitly
because they are the only nondeterministic inputs. -/
structure JwtPayload where
  sub : String
  iss : String
  aud : String
  iat : Int
  exp : Int
  jti : String
  typ : String
  scope : String
  preferred_username : String
  email_verified : Bool
  auth_time : Int
  acr : String
  azp : String
  user_id : Option Int
  is_admin : Bool
  first_name : Option String
  last_name : Option String
  realm_roles : List String
  account_roles : List String
  session_state : String
deriving Repr, DecidableEq

/-- Modelled from the spec: a signed token carries its claim set and a
signature; anything that does not parse as a signed token is malformed. -/
inductive Jwt where
  | signed (payload : JwtPayload) (sig : String)
  | malformedTok (raw : String)
deriving Repr, DecidableEq

/-- The process-wide signing key (`SECRET_KEY`, line 17): fixed for the
process lifetime and shared by issuer and verifier. -/
def SECRET_KEY : String := "process-signing-key"

/-- `ACCESS_TOKEN_EXPIRE_HOURS = 24`, in seconds. -/
def accessTokenLifetime : Int := 86400

/-- Serialization of the signed claim fields, used by the modelled MAC. -/
def jwtSignedFields (p : JwtPayload) : String :=
  p.sub ++ "|" ++ p.iss ++ "|" ++ p.aud ++ "|" ++ toString p.iat ++ "|" ++
  toString p.exp ++ "|" ++ p.jti ++ "|" ++ p.typ ++ "|" ++ p.scope ++ "|" ++
  p.preferred_username ++ "|" ++ toString p.auth_time ++ "|" ++ p.acr ++ "|" ++
  p.azp ++ "|" ++ toString p.is_admin ++ "|" ++ p.session_state

/-- Modelled from the spec: the HMAC-SHA256-equivalent signature of a claim
set under a key (symmetric: issuer and verifier compute the same tag; its
cryptographic strength is not the subject of any claim here, only that the
verifier recomputes and compares it). -/
def jwtSign (key : String) (p : JwtPayload) : String :=
  key ++ "#" ++ jwtSignedFields p

/-- `create_access_token` (lines 211-278): build the claim set and sign it.
`exp` is always `iat + 24h`; `aud` is always `"account"`. -/
def create_access_token (username : String) (scope : String)
    (user_id : Option Int) (is_admin : Bool)
    (first_name last_name : Option String)
    (now : Int) (jti session_state : String) : Jwt :=
  let payload : JwtPayload :=
    { sub := username, iss := "job-track-now-api", aud := "account",
      iat := now, exp := now + accessTokenLifetime, jti := jti,
      typ := "Bearer", scope := scope, preferred_username := username,
      email_verified := false, auth_time := now, acr := "1",
      azp := "job-tracker-client", user_id := user_id, is_admin := is_admin,
      first_name := first_name, last_name := last_name,
      realm_roles := if is_admin then ["admin", "user", "job_tracker_user"]
                     else ["user", "job_tracker_user"],
      account_roles := ["manage-account", "view-profile"],
      session_state := session_state }
  Jwt.signed payload (jwtSign SECRET_KEY payload)

/-- Modelled from the spec: `jose.jwt.decode(token, key, algorithms=..,
options=..)` — validates the signature, then `expires_at > now`, then the
audience only when audience verification is enabled; every failure is the
one uniform `None` signal. -/
def jwtDecodeModel (t : Jwt) (key : String) (verifyAud : Bool)
    (audience : Option String) (now : Int) : Option JwtPayload :=
  match t with
  | .malformedTok _ => none
  | .signed p sig =>
      if sig ≠ jwtSign key p then none
      else if p.exp ≤ now then none
      else if verifyAud && (some p.aud ≠ audience) then none
      else some p

/-- `verify_access_token` (lines 281-303): decode with the process key and
`options={"verify_aud": False}`; any `JWTError` becomes `None`. -/
def verify_access_token (t : Jwt) (now : Int) : Option JwtPayload :=
  jwtDecodeModel t SECRET_KEY false none now

/-! ## Token exchange handler `POST /token` (src/app/api/oauth.py lines 344-437) -/

/-- Observable outcome of `POST /token`: a 200 token response, a 400
`HTTPException` with its detail string, or an unhandled exception that the
framework surfaces as a 500. -/
inductive TokenOutcome where
  | ok (access_token : Jwt) (token_type : String) (expires_in : Int)
  | badRequest (detail : String)
  | serverError
deriving Repr, DecidableEq

/-- The `token` handler.  `usersRow` is the result of the
`SELECT first_name, last_name FROM users WHERE user_id = ..` lookup (the
`oauth_codes` row carries no name columns, so the handler always falls back
to it); `jti`/`session_state` are the `uuid4()` draws inside
`create_access_token`.  Gate order as in the source: grant_type, retrieve,
redirect_uri match, PKCE, mark used, issue.  Detail strings are the
source's, except that the inner quotes around authorization_code in the
grant_type message are omitted. -/
def token_endpoint (db : Db) (grant_type code code_verifier redirect_uri : String)
    (usersRow : Option (Option String × Option String))
    (now : Int) (jti session_state : String) : TokenOutcome × Db :=
  if grant_type ≠ "authorization_code" then
    (.badRequest "Invalid grant_type. Must be authorization_code", db)
  else
    match retrieve_authorization_code db code now with
    | none => (.badRequest "Invalid or expired authorization code", db)
    | some code_data =>
        if code_data.redirect_uri ≠ redirect_uri then
          (.badRequest "Redirect URI mismatch", db)
        else
          match verify_pkce_challenge code_verifier code_data.code_challenge
              code_data.code_challenge_method with
          | none => (.serverError, db)
          | some false => (.badRequest "Invalid code_verifier", db)
          | some true =>
              let db2 := mark_authorization_code_used db code now
              let names := match usersRow with
                | some nm => nm
                | none => (none, none)
              let tok := create_access_token code_data.username code_data.scope
                (some code_data.user_id) code_data.is_admin
                names.1 names.2 now jti session_state
              (.ok tok "Bearer" 86400, db2)

/-! ## Login handler `POST /login` (src/app/api/oauth.py lines 237-341) -/

/-- Observable outcome of `POST /login`: a 302 redirect carrying the code, a
401 for bad credentials, or the catch-all 500. -/
inductive LoginOutcome where
  | redirect (location : String)
  | unauthorized (detail : String)
  | serverError (detail : String)
deriving Repr, DecidableEq

/-- The `login` handler.  The credential check against the `users` table is
an external collaborator; its outcome is the `userRow` parameter (`none`
means no such user or wrong password).  On success the handler generates a
code (here a parameter, since it is a fresh random draw), stores it, and
redirects; a storage error falls into the generic `except` and becomes the
500 "Authentication error". -/
def login_endpoint (db : Db)
    (redirect_uri state code_challenge code_challenge_method scope : String)
    (username : String)
    (userRow : Option (Int × Bool))
    (auth_code : String) (now : Int) : LoginOutcome × Db :=
  match userRow with
  | none => (.unauthorized "Invalid username or password", db)
  | some (uid, admin) =>
      match store_authorization_code db auth_code username redirect_uri
          code_challenge code_challenge_method state scope uid admin now with
      | .error _ => (.serverError "Authentication error", db)
      | .ok db2 =>
          (.redirect (redirect_uri ++ "?code=" ++ auth_code ++ "&state=" ++ state),
           db2)

/-! ## JWT authentication middleware (src/app/middleware/jwt_middleware.py) -/

/-- Paths that do not require authentication (lines 13-23). -/
def EXCLUDED_PATHS : List String :=
  ["/v1/authorize", "/v1/login", "/v1/token", "/v1/user/empty", "/health",
   "/", "/docs", "/redoc", "/openapi.json"]

/-- Paths allowed without auth while no users exist (lines 27-29). -/
def CONDITIONAL_PATHS : List String := ["/v1/user"]

/-- Python `str.startswith(pre)`, at character level. -/
def strStartsWith (s pre : String) : Bool :=
  s.data.take pre.data.length == pre.data

/-- Python `str.split()`: split on spaces, dropping empty fields. -/
def splitWs (s : String) : List String :=
  (s.split (fun c => c = ' ')).filter (fun x => x ≠ "")

/-- Observable outcome of `JWTAuthMiddleware.dispatch`: hand the request to
`call_next` unauthenticated, reject with a 401 JSON body, or hand it on
with the decoded claims attached to `request.state.user`. -/
inductive MwOutcome where
  | passThrough
  | unauthorized (detail : String)
  | authenticated (payload : JwtPayload)
deriving Repr, DecidableEq

/-- `JWTAuthMiddleware.dispatch` (lines 61-130).  `verifyTok` abstracts
`verify_access_token` composed with parsing the header's token string;
`usersEmpty` is the fresh `_check_users_empty()` result.  Path matching is
by `str.startswith` against each entry of the two lists, exactly as in the
source. -/
def jwt_dispatch (verifyTok : String → Option JwtPayload)
    (path method : String) (usersEmpty : Bool)
    (authHeader : Option String) : MwOutcome :=
  if EXCLUDED_PATHS.any (fun p => strStartsWith path p) then
    .passThrough
  else if CONDITIONAL_PATHS.any (fun p => strStartsWith path p) &&
      method == "POST" && usersEmpty then
    .passThrough
  else
    match authHeader with
    | none => .unauthorized "Not authenticated"
    | some h =>
        let parts := splitWs h
        if parts.length ≠ 2 || (parts.getD 0 "").toLower ≠ "bearer" then
          .unauthorized "Invalid authentication credentials"
        else
          match verifyTok (parts.getD 1 "") with
          | none => .unauthorized "Invalid or expired token"
          | some payload => .authenticated payload

/-! ## Interleaving model for concurrent `POST /token` exchanges (C3)

Per the spec's concurrency model, storage I/O calls are the suspension
points: a request handler can be interleaved with another between its
`retrieve_authorization_code` read and its `mark_authorization_code_used`
write.  A process below is one exchange attempt for a fixed code whose pure
gates (grant type, redirect URI, PKCE) all pass; `done true` is the 200
token response, `done false` the 400 "Invalid or expired authorization
code". -/

/-- Progress of one exchange attempt through its storage steps. -/
inductive PState where
  | start
  | retrieved (r : OAuthCode)
  | done (success : Bool)
deriving Repr, DecidableEq

/-- Shared store plus the two request handlers' states. -/
structure ConcState where
  db : Db
  p1 : PState
  p2 : PState
deriving Repr, DecidableEq

/-- One storage step of one exchange attempt: the retrieve gate (a failed
retrieve is the immediate 400), then the unconditional mark-used write
followed by token issuance. -/
def stepProc (code : String) (now : Int) (db : Db) : PState → PState × Db
  | .start =>
      match retrieve_authorization_code db code now with
      | none => (.done false, db)
      | some r => (.retrieved r, db)
  | .retrieved _ => (.done true, mark_authorization_code_used db code now)
  | .done b => (.done b, db)

/-- Run the process named by the scheduler entry (`false` = first request). -/
def stepSched (code : String) (now : Int) (s : ConcState) (pid : Bool) : ConcState :=
  if pid then
    let pr := stepProc code now s.db s.p2
    { s with p2 := pr.1, db := pr.2 }
  else
    let pr := stepProc code now s.db s.p1
    { s with p1 := pr.1, db := pr.2 }

/-- Execute a whole interleaving schedule. -/
def runSched (code : String) (now : Int) (s : ConcState) (sched : List Bool) :
    ConcState :=
  sched.foldl (stepSched code now) s

/-! ## Concrete sample data for witnesses and counterexamples -/

/-- A sample `oauth_codes` row. -/
def mkCode (code challenge method ruri : String) (created : Int) (used : Bool) :
    OAuthCode :=
  { code := code, username := "alice", redirect_uri := ruri,
    code_challenge := challenge, code_challenge_method := method,
    state := "st", scope := "all", created_at := created, used := used,
    used_at := none, user_id := 7, is_admin := false }

/-- A store with no injected faults. -/
def mkDb (codes : List OAuthCode) : Db :=
  { codes := codes, failStore := false, failRetrieve := false,
    failMarkUsed := false }

/-- Whether a token-endpoint outcome is the 200 token response. -/
def TokenOutcome.isOk : TokenOutcome → Bool
  | .ok _ _ _ => true
  | _ => false

/-- The claim set carried by a token, when it is a signed token. -/
def Jwt.payloadOf : Jwt → Option JwtPayload
  | .signed p _ => some p
  | .malformedTok _ => none

/-- A sample claim set for concrete witnesses. -/
def samplePayload : JwtPayload :=
  { sub := "alice", iss := "job-track-now-api", aud := "account", iat := 0,
    exp := 100, jti := "j", typ := "Bearer", scope := "all",
    preferred_username := "alice", email_verified := false, auth_time := 0,
    acr := "1", azp := "job-tracker-client", user_id := some 7,
    is_admin := false, first_name := none, last_name := none,
    realm_roles := ["user", "job_tracker_user"],
    account_roles := ["manage-account", "view-profile"], session_state := "s" }

/-! ### Injectivity of the base64url encoding on byte lists

Proved by exhibiting the decoder and a round-trip: this is what lets a
difference of SHA-256 digests be carried through to a difference of stored
challenges. -/

/-- Index of a character in the base64url alphabet. -/
def sextetVal (c : Char) : Nat := b64chars.findIdx (fun x => x == c)

/-- Decoder for `b64CharList` output. -/
def b64DecodeChars : List Char → List Nat
  | s0 :: s1 :: s2 :: s3 :: rest =>
      (sextetVal s0 * 4 + sextetVal s1 / 16) ::
      (sextetVal s1 % 16 * 16 + sextetVal s2 / 4) ::
      (sextetVal s2 % 4 * 64 + sextetVal s3) :: b64DecodeChars rest
  | [s0, s1] => [sextetVal s0 * 4 + sextetVal s1 / 16]
  | [s0, s1, s2] => [sextetVal s0 * 4 + sextetVal s1 / 16,
                     sextetVal s1 % 16 * 16 + sextetVal s2 / 4]
  | _ => []

theorem sextetVal_sextetChar (n : Nat) (h : n < 64) :
    sextetVal (sextetChar n) = n := by
  have key : ∀ m : Fin 64, sextetVal (sextetChar m.val) = m.val := by decide
  exact key ⟨n, h⟩

theorem b64_roundtrip (bs : List Nat) (hb : ∀ b ∈ bs, b < 256) :
    b64DecodeChars (b64CharList bs) = bs := by
  match bs with
  | [] => rfl
  | [b0] =>
      have h0 : b0 < 256 := hb b0 (by simp)
      simp only [b64CharList, b64DecodeChars]
      rw [sextetVal_sextetChar _ (by omega), sextetVal_sextetChar _ (by omega)]
      have : b0 / 4 * 4 + b0 % 4 * 16 / 16 = b0 := by omega
      rw [this]
  | [b0, b1] =>
      have h0 : b0 < 256 := hb b0 (by simp)
      have h1 : b1 < 256 := hb b1 (by simp)
      simp only [b64CharList, b64DecodeChars]
      rw [sextetVal_sextetChar _ (by omega), sextetVal_sextetChar _ (by omega),
          sextetVal_sextetChar _ (by omega)]
      have e0 : b0 / 4 * 4 + (b0 % 4 * 16 + b1 / 16) / 16 = b0 := by omega
      have e1 : (b0 % 4 * 16 + b1 / 16) % 16 * 16 + b1 % 16 * 4 / 4 = b1 := by
        omega
      rw [e0, e1]
  | b0 :: b1 :: b2 :: rest =>
      have h0 : b0 < 256 := hb b0 (by simp)
      have h1 : b1 < 256 := hb b1 (by simp)
      have h2 : b2 < 256 := hb b2 (by simp)
      have ih := b64_roundtrip rest (fun b hbm => hb b (by simp [hbm]))
      simp only [b64CharList, b64DecodeChars]
      rw [sextetVal_sextetChar _ (by omega), sextetVal_sextetChar _ (by omega),
          sextetVal_sextetChar _ (by omega), sextetVal_sextetChar _ (by omega)]
      have e0 : b0 / 4 * 4 + (b0 % 4 * 16 + b1 / 16) / 16 = b0 := by omega
      have e1 : (b0 % 4 * 16 + b1 / 16) % 16 * 16 +
          (b1 % 16 * 4 + b2 / 64) / 4 = b1 := by omega
      have e2 : (b1 % 16 * 4 + b2 / 64) % 4 * 64 + b2 % 64 = b2 := by omega
      rw [e0, e1, e2, ih]

theorem b64CharList_inj {xs ys : List Nat} (hx : ∀ b ∈ xs, b < 256)
    (hy : ∀ b ∈ ys, b < 256) (h : b64CharList xs = b64CharList ys) : xs = ys := by
  rw [← b64_roundtrip xs hx, ← b64_roundtrip ys hy, h]

theorem base64urlNoPad_inj {xs ys : List Nat} (hx : ∀ b ∈ xs, b < 256)
    (hy : ∀ b ∈ ys, b < 256) (h : base64urlNoPad xs = base64urlNoPad ys) :
    xs = ys := by
  apply b64CharList_inj hx hy
  have := congrArg String.data h
  simpa [base64urlNoPad] using this

theorem wordBytes_lt (w : Nat) : ∀ b ∈ wordBytes w, b < 256 := by
  simp only [wordBytes, List.mem_cons, List.not_mem_nil, or_false]
  omega

theorem sha256_bytes_lt (m : List Nat) : ∀ b ∈ sha256 m, b < 256 := by
  intro b hb
  simp only [sha256, List.mem_flatMap] at hb
  obtain ⟨w, _, hw⟩ := hb
  exact wordBytes_lt w b hw

set_option maxRecDepth 10000

/-- C4 counterexample: flipping the top bit of the first byte of the ASCII
verifier "abc" (0x61 to 0xE1, a single-bit mutation) gives a verifier on
which S256 verification raises `UnicodeEncodeError` (result `none`) instead
of returning `false` as claimed. -/
theorem pkce_single_bit_flip_raises :
    Char.toNat 'á' = Char.toNat 'a' + 128 ∧
    verify_pkce_challenge "abc" (genChallengeS256 "abc") "S256" = some true ∧
    verify_pkce_challenge "ábc" (genChallengeS256 "abc") "S256" = none := by
  refine ⟨by decide, by decide, by decide⟩

/-- C4 (amended): characterization of `verify_pkce_challenge`. -/
theorem pkce_verify_characterization :
    (∀ v c : String, isAsciiStr v = true →
      (verify_pkce_challenge v c "S256" = some true ↔
        base64urlNoPad (sha256 (asciiBytes v)) = c))
  ∧ (∀ v c : String, verify_pkce_challenge v c "plain" = some (v == c))
  ∧ (∀ v c m : String, m ≠ "S256" → m ≠ "plain" →
      verify_pkce_challenge v c m = some false)
  ∧ (∀ v : String, isAsciiStr v = true →
      verify_pkce_challenge v (genChallengeS256 v) "S256" = some true)
  ∧ (∀ v v' : String, isAsciiStr v = true → isAsciiStr v' = true →
      sha256 (asciiBytes v') ≠ sha256 (asciiBytes v) →
      verify_pkce_challenge v' (genChallengeS256 v) "S256" = some false)
  ∧ (∀ v c : String, isAsciiStr v = false →
      verify_pkce_challenge v c "S256" = none) := by
  refine ⟨?_, ?_, ?_, ?_, ?_, ?_⟩
  · intro v c h
    simp [verify_pkce_challenge, asciiEncode, h]
  · intro v c
    rfl
  · intro v c m h1 h2
    simp [verify_pkce_challenge, h1, h2]
  · intro v h
    simp [verify_pkce_challenge, asciiEncode, h, genChallengeS256]
  · intro v v' hv hv' hne
    have hb : base64urlNoPad (sha256 (asciiBytes v')) ≠
        base64urlNoPad (sha256 (asciiBytes v)) := by
      intro hEq
      exact hne (base64urlNoPad_inj (sha256_bytes_lt _) (sha256_bytes_lt _) hEq)
    simp [verify_pkce_challenge, asciiEncode, hv', genChallengeS256, hb]
  · intro v c h
    simp [verify_pkce_challenge, asciiEncode, h]

/-- Witness for the C4 characterization at concrete inputs. -/
theorem pkce_verify_characterization_witness :
    verify_pkce_challenge "abc" (genChallengeS256 "abc") "S256" = some true ∧
    verify_pkce_challenge "abd" (genChallengeS256 "abc") "S256" = some false ∧
    verify_pkce_challenge "xyz" "whatever" "S512" = some false ∧
    verify_pkce_challenge "é" "c" "S256" = none :=
  ⟨pkce_verify_characterization.2.2.2.1 "abc" (by decide),
   pkce_verify_characterization.2.2.2.2.1 "abc" "abd" (by decide) (by decide)
     (by decide),
   pkce_verify_characterization.2.2.1 "xyz" "whatever" "S512" (by decide)
     (by decide),
   pkce_verify_characterization.2.2.2.2.2 "é" "c" (by decide)⟩

/-- C10: a verifier containing a character outside the ASCII range makes the
S256 branch raise (none) instead of returning false, and consequently
`POST /token` with such a verifier, against a valid stored code with method
S256 and matching redirect URI, ends as an unhandled server error (500)
rather than the 400 "Invalid code_verifier" response. -/
theorem nonascii_verifier_unhandled (db : Db) (code verifier ruri : String)
    (usersRow : Option (Option String × Option String)) (now : Int)
    (jti ss : String) (r : OAuthCode)
    (hret : retrieve_authorization_code db code now = some r)
    (hru : r.redirect_uri = ruri)
    (hm : r.code_challenge_method = "S256")
    (hv : ∃ ch ∈ verifier.data, 128 ≤ ch.toNat) :
    verify_pkce_challenge verifier r.code_challenge r.code_challenge_method =
      none ∧
    token_endpoint db "authorization_code" code verifier ruri usersRow now
      jti ss = (.serverError, db) := by
  have hna : isAsciiStr verifier = false := by
    rcases hv with ⟨ch, hmem, hge⟩
    refine List.all_eq_false.mpr ⟨ch, hmem, ?_⟩
    simp
    omega
  have hpk : verify_pkce_challenge verifier r.code_challenge
      r.code_challenge_method = none := by
    rw [hm]
    simp [verify_pkce_challenge, asciiEncode, hna]
  refine ⟨hpk, ?_⟩
  simp [token_endpoint, hret, hru, hpk]

/-- Witness for C10 at a concrete store and verifier. -/
theorem nonascii_verifier_unhandled_witness :
    verify_pkce_challenge "év" "chal" "S256" = none ∧
    token_endpoint (mkDb [mkCode "c1" "chal" "S256" "https://cb" 0 false])
      "authorization_code" "c1" "év" "https://cb" none 0 "j" "s" =
      (.serverError, mkDb [mkCode "c1" "chal" "S256" "https://cb" 0 false]) := by
  have h := nonascii_verifier_unhandled
    (mkDb [mkCode "c1" "chal" "S256" "https://cb" 0 false]) "c1" "év"
    "https://cb" none 0 "j" "s" (mkCode "c1" "chal" "S256" "https://cb" 0 false)
    (by decide) (by decide) (by decide) (by decide)
  exact h

/-- Dissection of a successful retrieve: no injected fault, the row is found,
unused, and unexpired. -/
theorem retrieve_some {db : Db} {code : String} {now : Int} {r : OAuthCode}
    (h : retrieve_authorization_code db code now = some r) :
    db.failRetrieve = false ∧
    db.codes.find? (fun x => x.code == code) = some r ∧
    r.used = false ∧ ¬ (r.created_at < now - 600) := by
  unfold retrieve_authorization_code at h
  by_cases hf : db.failRetrieve
  · simp [hf] at h
  · simp only [hf] at h
    simp only [Bool.false_eq_true, if_false] at h
    cases hfind : db.codes.find? (fun x => x.code == code) with
    | none => rw [hfind] at h; cases h
    | some x =>
        rw [hfind] at h
        by_cases hu : x.used
        · simp [hu] at h
        · by_cases hex : x.created_at < now - 600
          · simp [hu, hex] at h
          · simp [hu, hex] at h
            subst h
            exact ⟨by simpa using hf, rfl, by simpa using hu, hex⟩

/-- After a (fault-free) mark-used of a code that was present, a retrieve of
that code returns `None` at every later time. -/
theorem retrieve_after_mark (db : Db) (code : String) (now now2 : Int)
    (r : OAuthCode) (hmf : db.failMarkUsed = false)
    (hfind : db.codes.find? (fun x => x.code == code) = some r) :
    retrieve_authorization_code (mark_authorization_code_used db code now)
      code now2 = none := by
  unfold mark_authorization_code_used
  simp only [hmf, Bool.false_eq_true, if_false]
  unfold retrieve_authorization_code
  by_cases hf : db.failRetrieve
  · simp [hf]
  · simp only [hf, Bool.false_eq_true, if_false]
    have hcomp : (fun (x : OAuthCode) => x.code == code) ∘
        (fun x => if x.code == code then
          { x with used := true, used_at := some now } else x) =
        (fun (x : OAuthCode) => x.code == code) := by
      funext x
      by_cases hx : x.code = code <;> simp [hx]
    rw [List.find?_map, hcomp, hfind]
    have hr := List.find?_some hfind
    have hr2 : r.code = code := by simpa using hr
    simp [hr2]

/-- C1: `retrieve` returns the stored grant row exactly when the code is
present, unused, and at most 10 minutes old (every other case is the
NotFound `none`), and consequently a code whose exchange succeeded answers
any later exchange attempt with 400 "Invalid or expired authorization
code", same verifier and redirect URI included. -/
theorem retrieve_iff_usable_and_single_use :
    (∀ (db : Db) (code : String) (now : Int) (r : OAuthCode),
      db.failRetrieve = false →
      (retrieve_authorization_code db code now = some r ↔
        db.codes.find? (fun x => x.code == code) = some r ∧
        r.used = false ∧ now - r.created_at ≤ 600))
  ∧ (∀ (db db2 : Db) (code v ruri : String)
      (usersRow : Option (Option String × Option String))
      (now now2 : Int) (jti ss jti2 ss2 : String) (tok : Jwt) (tt : String)
      (ei : Int),
      db.failMarkUsed = false →
      token_endpoint db "authorization_code" code v ruri usersRow now jti ss =
        (.ok tok tt ei, db2) →
      (token_endpoint db2 "authorization_code" code v ruri usersRow now2
        jti2 ss2).1 = .badRequest "Invalid or expired authorization code") := by
  constructor
  · intro db code now r hfr
    unfold retrieve_authorization_code
    simp only [hfr, Bool.false_eq_true, if_false]
    cases hfind : db.codes.find? (fun x => x.code == code) with
    | none => simp
    | some x =>
        by_cases hu : x.used
        · simp only [hu, if_true]
          constructor
          · intro h; cases h
          · rintro ⟨heq, hru, -⟩
            rw [Option.some_inj] at heq
            subst heq
            rw [hu] at hru
            cases hru
        · by_cases hex : x.created_at < now - 600
          · simp only [hu, hex, if_true, Bool.false_eq_true, if_false]
            constructor
            · intro h; cases h
            · rintro ⟨heq, -, hage⟩
              rw [Option.some_inj] at heq
              subst heq
              omega
          · simp only [hu, hex, Bool.false_eq_true, if_false]
            constructor
            · intro h
              rw [Option.some_inj] at h
              subst h
              exact ⟨rfl, by simpa using hu, by omega⟩
            · rintro ⟨heq, -, -⟩
              rw [Option.some_inj] at heq
              subst heq
              rfl
  · intro db db2 code v ruri usersRow now now2 jti ss jti2 ss2 tok tt ei hmf h
    unfold token_endpoint at h
    simp only [ne_eq, not_true_eq_false, Bool.false_eq_true, if_false,
      reduceIte] at h
    cases hret : retrieve_authorization_code db code now with
    | none => rw [hret] at h; cases h
    | some cd =>
        rw [hret] at h
        by_cases hru : cd.redirect_uri = ruri
        · simp only [hru, ne_eq, not_true_eq_false, Bool.false_eq_true,
            if_false, reduceIte] at h
          cases hpk : verify_pkce_challenge v cd.code_challenge
              cd.code_challenge_method with
          | none => rw [hpk] at h; cases h
          | some b =>
              cases b
              · rw [hpk] at h; cases h
              · rw [hpk] at h
                have hdb2 : db2 = mark_authorization_code_used db code now := by
                  have := congrArg Prod.snd h
                  simpa using this.symm
                obtain ⟨-, hfind, -, -⟩ := retrieve_some hret
                unfold token_endpoint
                simp only [ne_eq, not_true_eq_false, Bool.false_eq_true,
                  if_false, reduceIte]
                rw [hdb2, retrieve_after_mark db code now now2 cd hmf hfind]
        · exfalso
          simp [hru] at h

/-- Witness for C1 at a concrete store: a fresh unused row is retrievable,
and after one successful exchange the same request is rejected. -/
theorem retrieve_iff_usable_and_single_use_witness :
    (retrieve_authorization_code
        (mkDb [mkCode "c1" "v" "plain" "https://cb" 0 false]) "c1" 100 =
          some (mkCode "c1" "v" "plain" "https://cb" 0 false) ↔
      (mkDb [mkCode "c1" "v" "plain" "https://cb" 0 false]).codes.find?
          (fun x => x.code == "c1") =
        some (mkCode "c1" "v" "plain" "https://cb" 0 false) ∧
      (mkCode "c1" "v" "plain" "https://cb" 0 false).used = false ∧
      (100 : Int) - (mkCode "c1" "v" "plain" "https://cb" 0 false).created_at ≤
        600) ∧
    (token_endpoint
        (mark_authorization_code_used
          (mkDb [mkCode "c1" "v" "plain" "https://cb" 0 false]) "c1" 0)
        "authorization_code" "c1" "v" "https://cb" none 5 "j2" "s2").1 =
      .badRequest "Invalid or expired authorization code" :=
  ⟨retrieve_iff_usable_and_single_use.1
      (mkDb [mkCode "c1" "v" "plain" "https://cb" 0 false]) "c1" 100
      (mkCode "c1" "v" "plain" "https://cb" 0 false) rfl,
   retrieve_iff_usable_and_single_use.2
      (mkDb [mkCode "c1" "v" "plain" "https://cb" 0 false])
      (mark_authorization_code_used
        (mkDb [mkCode "c1" "v" "plain" "https://cb" 0 false]) "c1" 0)
      "c1" "v" "https://cb" none 0 5 "j" "s" "j2" "s2"
      (create_access_token "alice" "all" (some 7) false none none 0 "j" "s")
      "Bearer" 86400 rfl (by decide)⟩

/-- C7: the token endpoint's gates fire in source order, each failure
short-circuiting with its 400 and leaving the store untouched; redirect URI
mismatch is answered with 400 "Redirect URI mismatch" for every verifier,
correct ones included; only after all gates pass is the code marked used. -/
theorem token_gate_order :
    (∀ (db : Db) (gt code v ruri : String)
      (usersRow : Option (Option String × Option String)) (now : Int)
      (jti ss : String), gt ≠ "authorization_code" →
      token_endpoint db gt code v ruri usersRow now jti ss =
        (.badRequest "Invalid grant_type. Must be authorization_code", db))
  ∧ (∀ (db : Db) (code v ruri : String)
      (usersRow : Option (Option String × Option String)) (now : Int)
      (jti ss : String),
      retrieve_authorization_code db code now = none →
      token_endpoint db "authorization_code" code v ruri usersRow now jti ss =
        (.badRequest "Invalid or expired authorization code", db))
  ∧ (∀ (db : Db) (code v ruri : String)
      (usersRow : Option (Option String × Option String)) (now : Int)
      (jti ss : String) (r : OAuthCode),
      retrieve_authorization_code db code now = some r →
      r.redirect_uri ≠ ruri →
      token_endpoint db "authorization_code" code v ruri usersRow now jti ss =
        (.badRequest "Redirect URI mismatch", db))
  ∧ (∀ (db : Db) (code v ruri : String)
      (usersRow : Option (Option String × Option String)) (now : Int)
      (jti ss : String) (r : OAuthCode),
      retrieve_authorization_code db code now = some r →
      r.redirect_uri = ruri →
      verify_pkce_challenge v r.code_challenge r.code_challenge_method =
        some false →
      token_endpoint db "authorization_code" code v ruri usersRow now jti ss =
        (.badRequest "Invalid code_verifier", db))
  ∧ (∀ (db : Db) (code v ruri : String)
      (usersRow : Option (Option String × Option String)) (now : Int)
      (jti ss : String) (r : OAuthCode),
      retrieve_authorization_code db code now = some r →
      r.redirect_uri = ruri →
      verify_pkce_challenge v r.code_challenge r.code_challenge_method =
        some true →
      (token_endpoint db "authorization_code" code v ruri usersRow now
          jti ss).2 = mark_authorization_code_used db code now ∧
      ((token_endpoint db "authorization_code" code v ruri usersRow now
          jti ss).1).isOk = true) := by
  refine ⟨?_, ?_, ?_, ?_, ?_⟩
  · intro db gt code v ruri usersRow now jti ss hgt
    simp [token_endpoint, hgt]
  · intro db code v ruri usersRow now jti ss hret
    simp [token_endpoint, hret]
  · intro db code v ruri usersRow now jti ss r hret hru
    simp [token_endpoint, hret, hru]
  · intro db code v ruri usersRow now jti ss r hret hru hpk
    simp [token_endpoint, hret, hru, hpk]
  · intro db code v ruri usersRow now jti ss r hret hru hpk
    simp [token_endpoint, hret, hru, hpk, TokenOutcome.isOk]

/-- Witness for C7: each gate exercised at a concrete store. -/
theorem token_gate_order_witness :
    token_endpoint (mkDb [mkCode "c1" "v" "plain" "https://cb" 0 false])
      "password" "c1" "v" "https://cb" none 0 "j" "s" =
      (.badRequest "Invalid grant_type. Must be authorization_code",
       mkDb [mkCode "c1" "v" "plain" "https://cb" 0 false]) ∧
    token_endpoint (mkDb []) "authorization_code" "c1" "v" "https://cb" none 0
      "j" "s" =
      (.badRequest "Invalid or expired authorization code", mkDb []) ∧
    token_endpoint (mkDb [mkCode "c1" "v" "plain" "https://cb" 0 false])
      "authorization_code" "c1" "v" "https://evil" none 0 "j" "s" =
      (.badRequest "Redirect URI mismatch",
       mkDb [mkCode "c1" "v" "plain" "https://cb" 0 false]) ∧
    token_endpoint (mkDb [mkCode "c1" "v" "plain" "https://cb" 0 false])
      "authorization_code" "c1" "wrong" "https://cb" none 0 "j" "s" =
      (.badRequest "Invalid code_verifier",
       mkDb [mkCode "c1" "v" "plain" "https://cb" 0 false]) ∧
    (token_endpoint (mkDb [mkCode "c1" "v" "plain" "https://cb" 0 false])
      "authorization_code" "c1" "v" "https://cb" none 0 "j" "s").2 =
      mark_authorization_code_used
        (mkDb [mkCode "c1" "v" "plain" "https://cb" 0 false]) "c1" 0 ∧
    ((token_endpoint (mkDb [mkCode "c1" "v" "plain" "https://cb" 0 false])
      "authorization_code" "c1" "v" "https://cb" none 0 "j" "s").1).isOk =
      true :=
  ⟨token_gate_order.1 _ "password" "c1" "v" "https://cb" none 0 "j" "s"
      (by decide),
   token_gate_order.2.1 (mkDb []) "c1" "v" "https://cb" none 0 "j" "s"
      (by decide),
   token_gate_order.2.2.1 _ "c1" "v" "https://evil" none 0 "j" "s"
      (mkCode "c1" "v" "plain" "https://cb" 0 false) (by decide) (by decide),
   token_gate_order.2.2.2.1 _ "c1" "wrong" "https://cb" none 0 "j" "s"
      (mkCode "c1" "v" "plain" "https://cb" 0 false) (by decide) (by decide)
      (by decide),
   (token_gate_order.2.2.2.2 _ "c1" "v" "https://cb" none 0 "j" "s"
      (mkCode "c1" "v" "plain" "https://cb" 0 false) (by decide) (by decide)
      (by decide)).1,
   (token_gate_order.2.2.2.2 _ "c1" "v" "https://cb" none 0 "j" "s"
      (mkCode "c1" "v" "plain" "https://cb" 0 false) (by decide) (by decide)
      (by decide)).2⟩

/-- C9: a storage error inside `mark_authorization_code_used` is swallowed:
the exchange still returns a 200 with a fresh token, the store is unchanged
(the row's used flag stays false), and the same code can be exchanged again
successfully. -/
theorem mark_used_error_swallowed (db : Db) (code v ruri : String)
    (usersRow : Option (Option String × Option String)) (now : Int)
    (jti ss jti2 ss2 : String) (r : OAuthCode)
    (hmf : db.failMarkUsed = true)
    (hret : retrieve_authorization_code db code now = some r)
    (hru : r.redirect_uri = ruri)
    (hpk : verify_pkce_challenge v r.code_challenge r.code_challenge_method =
      some true) :
    ((token_endpoint db "authorization_code" code v ruri usersRow now
        jti ss).1).isOk = true ∧
    (token_endpoint db "authorization_code" code v ruri usersRow now
        jti ss).2 = db ∧
    retrieve_authorization_code
      ((token_endpoint db "authorization_code" code v ruri usersRow now
        jti ss).2) code now = some r ∧
    ((token_endpoint
        ((token_endpoint db "authorization_code" code v ruri usersRow now
          jti ss).2) "authorization_code" code v ruri usersRow now
        jti2 ss2).1).isOk = true := by
  have hdb : (token_endpoint db "authorization_code" code v ruri usersRow now
      jti ss).2 = db := by
    simp [token_endpoint, hret, hru, hpk, mark_authorization_code_used, hmf]
  refine ⟨?_, hdb, ?_, ?_⟩
  · simp [token_endpoint, hret, hru, hpk, TokenOutcome.isOk]
  · rw [hdb]; exact hret
  · rw [hdb]
    simp [token_endpoint, hret, hru, hpk, TokenOutcome.isOk]

/-- Witness for C9 at a concrete store with the mark-used fault injected. -/
theorem mark_used_error_swallowed_witness :
    ((token_endpoint
        { codes := [mkCode "c1" "v" "plain" "https://cb" 0 false],
          failStore := false, failRetrieve := false, failMarkUsed := true }
        "authorization_code" "c1" "v" "https://cb" none 0 "j" "s").1).isOk =
      true ∧
    (token_endpoint
        { codes := [mkCode "c1" "v" "plain" "https://cb" 0 false],
          failStore := false, failRetrieve := false, failMarkUsed := true }
        "authorization_code" "c1" "v" "https://cb" none 0 "j" "s").2 =
      { codes := [mkCode "c1" "v" "plain" "https://cb" 0 false],
        failStore := false, failRetrieve := false, failMarkUsed := true } ∧
    retrieve_authorization_code
      ((token_endpoint
        { codes := [mkCode "c1" "v" "plain" "https://cb" 0 false],
          failStore := false, failRetrieve := false, failMarkUsed := true }
        "authorization_code" "c1" "v" "https://cb" none 0 "j" "s").2) "c1" 0 =
      some (mkCode "c1" "v" "plain" "https://cb" 0 false) ∧
    ((token_endpoint
        ((token_endpoint
          { codes := [mkCode "c1" "v" "plain" "https://cb" 0 false],
            failStore := false, failRetrieve := false, failMarkUsed := true }
          "authorization_code" "c1" "v" "https://cb" none 0 "j" "s").2)
        "authorization_code" "c1" "v" "https://cb" none 0 "j2" "s2").1).isOk =
      true :=
  mark_used_error_swallowed
    { codes := [mkCode "c1" "v" "plain" "https://cb" 0 false],
      failStore := false, failRetrieve := false, failMarkUsed := true }
    "c1" "v" "https://cb" none 0 "j" "s" "j2" "s2"
    (mkCode "c1" "v" "plain" "https://cb" 0 false)
    rfl (by decide) (by decide) (by decide)

/-- C8: a storage error during `retrieve` is swallowed into the NotFound
path, so `POST /token` answers 400 "Invalid or expired authorization code"
(exactly as for a missing code) instead of a 5xx; only the store side
propagates (login answers 500 "Authentication error" and issues no
redirect, leaving the store unchanged). -/
theorem retrieve_error_conflated_with_not_found :
    (token_endpoint
        { codes := [mkCode "c1" "v" "plain" "https://cb" 0 false],
          failStore := false, failRetrieve := true, failMarkUsed := false }
        "authorization_code" "c1" "v" "https://cb" none 0 "j" "s").1 =
      .badRequest "Invalid or expired authorization code" ∧
    (token_endpoint (mkDb []) "authorization_code" "c1" "v" "https://cb" none
        0 "j" "s").1 =
      .badRequest "Invalid or expired authorization code" ∧
    login_endpoint
      { codes := [], failStore := true, failRetrieve := false,
        failMarkUsed := false }
      "https://cb" "st" "ch" "S256" "all" "alice" (some (7, false)) "newcode"
      0 =
      (.serverError "Authentication error",
       { codes := [], failStore := true, failRetrieve := false,
         failMarkUsed := false }) := by
  refine ⟨by decide, by decide, by decide⟩

/-- C3: with the handler's two storage steps interleaved
(retrieve, retrieve, mark, mark) both concurrent exchange attempts for the
same valid code reach the 200 outcome, violating "exactly one succeeds";
run sequentially, the second attempt fails as expected. -/
theorem concurrent_exchange_double_success :
    (runSched "c1" 0
      { db := mkDb [mkCode "c1" "v" "plain" "https://cb" 0 false],
        p1 := .start, p2 := .start } [false, true, false, true]).p1 =
      .done true ∧
    (runSched "c1" 0
      { db := mkDb [mkCode "c1" "v" "plain" "https://cb" 0 false],
        p1 := .start, p2 := .start } [false, true, false, true]).p2 =
      .done true ∧
    (runSched "c1" 0
      { db := mkDb [mkCode "c1" "v" "plain" "https://cb" 0 false],
        p1 := .start, p2 := .start } [false, false, true, true]).p1 =
      .done true ∧
    (runSched "c1" 0
      { db := mkDb [mkCode "c1" "v" "plain" "https://cb" 0 false],
        p1 := .start, p2 := .start } [false, false, true, true]).p2 =
      .done false := by
  refine ⟨by decide, by decide, by decide, by decide⟩

/-- C2: because `"/"` is in `EXCLUDED_PATHS` and matching is by
`str.startswith`, every request path (every HTTP path begins with a slash)
is excluded: the middleware passes every request through unauthenticated
and never returns any of the three 401 responses. -/
theorem middleware_excludes_every_path :
    (∀ (verifyTok : String → Option JwtPayload) (method : String)
      (cs : List Char) (usersEmpty : Bool) (authHeader : Option String),
      jwt_dispatch verifyTok (String.mk ('/' :: cs)) method usersEmpty
        authHeader = .passThrough) ∧
    jwt_dispatch (fun _ => none) "/v1/interview" "GET" false none =
      .passThrough ∧
    jwt_dispatch (fun _ => none) "/v1/job" "POST" false (some "Basic zzz") =
      .passThrough ∧
    "/" ∈ EXCLUDED_PATHS := by
  refine ⟨?_, by decide, by decide, by decide⟩
  intro vt method cs ue ah
  have h : strStartsWith (String.mk ('/' :: cs)) "/" = true := rfl
  have hany : EXCLUDED_PATHS.any
      (fun p => strStartsWith (String.mk ('/' :: cs)) p) = true := by
    simp only [EXCLUDED_PATHS, List.any_cons, List.any_nil, Bool.or_eq_true]
    exact Or.inr (Or.inr (Or.inr (Or.inr (Or.inr (Or.inl h)))))
  simp [jwt_dispatch, hany]

/-- C5: verifying a freshly issued token before its expiry recovers subject,
scope, user_id and is_admin unchanged, and the expiry claim always equals
the issued-at claim plus 24 hours. -/
theorem issue_verify_roundtrip (username scope : String) (user_id : Option Int)
    (is_admin : Bool) (fn ln : Option String) (now t : Int) (jti ss : String)
    (h : t < now + 86400) :
    (verify_access_token
        (create_access_token username scope user_id is_admin fn ln now jti ss)
        t).map (fun p => p.sub) = some username ∧
    (verify_access_token
        (create_access_token username scope user_id is_admin fn ln now jti ss)
        t).map (fun p => p.scope) = some scope ∧
    (verify_access_token
        (create_access_token username scope user_id is_admin fn ln now jti ss)
        t).map (fun p => p.user_id) = some user_id ∧
    (verify_access_token
        (create_access_token username scope user_id is_admin fn ln now jti ss)
        t).map (fun p => p.is_admin) = some is_admin ∧
    (verify_access_token
        (create_access_token username scope user_id is_admin fn ln now jti ss)
        t).map (fun p => p.exp - p.iat) = some 86400 := by
  have hexp : ¬ ((now + 86400 : Int) ≤ t) := by omega
  unfold create_access_token verify_access_token jwtDecodeModel
  simp [accessTokenLifetime, hexp]

/-- Witness for C5 at a concrete claim set and time. -/
theorem issue_verify_roundtrip_witness :
    (verify_access_token
        (create_access_token "u" "all" (some 3) true none none 0 "j" "s")
        100).map (fun p => p.sub) = some "u" ∧
    (verify_access_token
        (create_access_token "u" "all" (some 3) true none none 0 "j" "s")
        100).map (fun p => p.scope) = some "all" ∧
    (verify_access_token
        (create_access_token "u" "all" (some 3) true none none 0 "j" "s")
        100).map (fun p => p.user_id) = some (some 3) ∧
    (verify_access_token
        (create_access_token "u" "all" (some 3) true none none 0 "j" "s")
        100).map (fun p => p.is_admin) = some true ∧
    (verify_access_token
        (create_access_token "u" "all" (some 3) true none none 0 "j" "s")
        100).map (fun p => p.exp - p.iat) = some 86400 :=
  issue_verify_roundtrip "u" "all" (some 3) true none none 0 100 "j" "s"
    (by decide)

/-- C6: token verification validates the signature and the expiry (an
expired token fails even with a correct signature), answers every failure
with the one uniform `none` signal, and accepts any audience value (the
issuer pins `aud = "account"`, the verifier never checks it). -/
theorem verify_token_uniform_checks :
    (∀ (p : JwtPayload) (now : Int), p.exp ≤ now →
      verify_access_token (.signed p (jwtSign SECRET_KEY p)) now = none)
  ∧ (∀ (raw : String) (now : Int),
      verify_access_token (.malformedTok raw) now = none)
  ∧ (∀ (p : JwtPayload) (sig : String) (now : Int),
      sig ≠ jwtSign SECRET_KEY p →
      verify_access_token (.signed p sig) now = none)
  ∧ (∀ (p : JwtPayload) (a : String) (now : Int), now < p.exp →
      verify_access_token
        (.signed ({ p with aud := a })
          (jwtSign SECRET_KEY ({ p with aud := a }))) now =
        some { p with aud := a })
  ∧ (∀ (username scope : String) (user_id : Option Int) (is_admin : Bool)
      (fn ln : Option String) (now : Int) (jti ss : String),
      ((create_access_token username scope user_id is_admin fn ln now jti
        ss).payloadOf).map (fun p => p.aud) = some "account") := by
  refine ⟨?_, ?_, ?_, ?_, ?_⟩
  · intro p now hexp
    simp [verify_access_token, jwtDecodeModel, hexp]
  · intro raw now
    rfl
  · intro p sig now hsig
    simp [verify_access_token, jwtDecodeModel, hsig]
  · intro p a now hexp
    have : ¬ (({ p with aud := a } : JwtPayload).exp ≤ now) := by
      simp
      omega
    simp [verify_access_token, jwtDecodeModel, this]
  · intro username scope user_id is_admin fn ln now jti ss
    rfl

/-- Witness for C6: an expired signed token, a wrongly signed token, and an
unexpired token with a non-account audience, all at concrete values. -/
theorem verify_token_uniform_checks_witness :
    verify_access_token
      (.signed samplePayload (jwtSign SECRET_KEY samplePayload)) 200 = none ∧
    verify_access_token (.malformedTok "garbage") 0 = none ∧
    verify_access_token (.signed samplePayload "") 0 = none ∧
    verify_access_token
      (.signed ({ samplePayload with aud := "other-service" })
        (jwtSign SECRET_KEY ({ samplePayload with aud := "other-service" })))
      0 = some { samplePayload with aud := "other-service" } :=
  ⟨verify_token_uniform_checks.1 samplePayload 200 (by decide),
   verify_token_uniform_checks.2.1 "garbage" 0,
   verify_token_uniform_checks.2.2.1 samplePayload "" 0 (by decide),
   verify_token_uniform_checks.2.2.2.1 samplePayload "other-service" 0
     (by decide)⟩
